import Mathlib

/-!
Shallow embedding of the "Legion Link" multi-device synchronized-capture
subsystem of the Quan-Ai-Camera repository, and proofs checking the
natural-language specification against it.

The embedded code lives in:
  * `services/legionService.ts` (class `LegionService`): membership,
    clock sync, heartbeat/sweep timer, command dispatch with commander
    loopback;
  * `components/CameraInterface.tsx`: the `onMessage` effect that reacts
    to `START_REC` / `STOP_REC`, and `startRecording` / `stopRecording`.

Modelling conventions:
  * JavaScript millisecond timestamps become `Int` (all the arithmetic in
    the source is on integral millisecond values);
  * `Map<string, DeviceTelemetry>` becomes an association list
    `List (String × DeviceTelemetry)` (first binding wins on lookup,
    `Map.set` replaces in place);
  * callbacks are opaque values of a type parameter; an invocation of a
    callback is recorded as an emitted `SvcEvent` rather than executed;
  * `setTimeout` becomes an explicit deferred-task value, so that
    "synchronous during the call" and "on a later scheduling turn" are
    distinguishable: a dispatch returns its immediate effects and its
    deferred tasks in separate lists.
-/

namespace LegionLink

/-- `LegionMessage['type']` from `types.ts`. -/
inductive MsgType where
  | HANDSHAKE | SYNC | START_REC | STOP_REC | HEARTBEAT | TELEMETRY | PREVIEW_FRAME | COMMAND
deriving DecidableEq, Repr

/-- `LegionRole` from `types.ts`: LEGATUS is the commander, CENTURION a field node. -/
inductive LegionRole where
  | LEGATUS | CENTURION
deriving DecidableEq, Repr

/-- `ConnectivityProtocol` from `legionService.ts`. -/
inductive ConnectivityProtocol where
  | WIFI | BLUETOOTH
deriving DecidableEq, Repr

/-- The fields of the untyped `payload` object that the embedded code reads
(`payload?.name`, `payload?.status`, `payload?.lens`, `payload?.preview`,
`payload?.delay`). -/
structure Payload where
  name : Option String := none
  status : Option String := none
  lens : Option String := none
  preview : Option String := none
  delay : Option Int := none
deriving DecidableEq, Repr

/-- `LegionMessage` from `types.ts`. -/
structure LegionMessage where
  type : MsgType
  timestamp : Int
  senderId : String
  payload : Option Payload := none
deriving DecidableEq, Repr

/-- `DeviceTelemetry` from `types.ts` (the fields `legionService.ts` writes). -/
structure DeviceTelemetry where
  id : String
  name : String
  role : LegionRole
  status : String
  currentLens : String
  previewFrame : Option String
  lastPing : Int
deriving DecidableEq, Repr

/-- `payload?.delay || 0` (for integral values, `||` falls back exactly when the
field is absent or `0`, and `getD 0` agrees on both). -/
def payloadDelay (msg : LegionMessage) : Int :=
  (msg.payload.bind Payload.delay).getD 0

/-- `payload?.name || 'Vanguard Node'`. -/
def payloadName (msg : LegionMessage) : String :=
  (msg.payload.bind Payload.name).getD "Vanguard Node"

/-- `payload?.status || 'ONLINE'`. -/
def payloadStatus (msg : LegionMessage) : String :=
  (msg.payload.bind Payload.status).getD "ONLINE"

/-- `payload?.lens || 'STANDARD'`. -/
def payloadLens (msg : LegionMessage) : String :=
  (msg.payload.bind Payload.lens).getD "STANDARD"

/-- `Map.get` on the association-list model of `Map<string, DeviceTelemetry>`. -/
def mapGet (m : List (String × DeviceTelemetry)) (k : String) : Option DeviceTelemetry :=
  (m.find? (fun p => p.1 = k)).map Prod.snd

/-- `Map.set` on the association-list model: replace the binding in place if the
key is present, otherwise append (JS `Map` keeps insertion order). -/
def mapSet (m : List (String × DeviceTelemetry)) (k : String) (v : DeviceTelemetry) :
    List (String × DeviceTelemetry) :=
  if m.any (fun p => p.1 = k) then
    m.map (fun p => if p.1 = k then (k, v) else p)
  else
    m ++ [(k, v)]

/-- The mutable fields of the `LegionService` singleton. `socketExists` models
`this.socket !== null`; `socketOpenState` models
`this.socket.readyState === WebSocket.OPEN`; callbacks are opaque values of the
type parameters `κ` (message callback) and `τ` (telemetry callback);
`heartbeatInterval` holds the period of the installed interval timer. -/
structure SvcState (κ τ : Type) where
  socketExists : Bool := false
  socketOpenState : Bool := false
  role : Option LegionRole := none
  protocol : ConnectivityProtocol := .WIFI
  deviceId : String
  syncOffset : Int := 0
  onMessageCallback : Option κ := none
  onTelemetryCallback : Option τ := none
  heartbeatInterval : Option Int := none
  devices : List (String × DeviceTelemetry) := []

/-- Observable effects of a `LegionService` operation. A callback invocation is
recorded, not executed; `deferredLoopback` is the body of the `setTimeout(…, 0)`
in `sendCommand`, which (when it later runs) invokes the message callback iff
one is registered at that time. -/
inductive SvcEvent (κ τ : Type) where
  | telemetryNotify (cb : τ) (devs : List DeviceTelemetry)
  | messageDeliver (cb : κ) (msg : LegionMessage)
  | socketSend (msg : LegionMessage)
  | nativeBroadcast (type : MsgType) (payload : Option Payload) (protocol : ConnectivityProtocol)
  | deferredLoopback (msg : LegionMessage)
deriving DecidableEq

/-- `notifyTelemetry()`: invoke the telemetry callback, if registered, with
`Array.from(this.devices.values())`. -/
def notifyTelemetry (s : SvcState κ τ) : List (SvcEvent κ τ) :=
  match s.onTelemetryCallback with
  | some cb => [.telemetryNotify cb (s.devices.map Prod.snd)]
  | none => []

/-- `LegionService.handleMessage(msg)` at local receipt time `localNow`
(`Date.now()` in the source). Returns the state after the call together with
the events it emitted, in order. -/
def handleMessage (s : SvcState κ τ) (msg : LegionMessage) (localNow : Int) :
    SvcState κ τ × List (SvcEvent κ τ) :=
  if msg.senderId = s.deviceId then (s, [])
  else
    let s1 :=
      if msg.type = .SYNC ∨ msg.type = .HEARTBEAT then
        { s with syncOffset := localNow - msg.timestamp }
      else s
    let record : DeviceTelemetry :=
      { id := msg.senderId
        name := payloadName msg
        role := .CENTURION
        status := payloadStatus msg
        currentLens := payloadLens msg
        previewFrame := msg.payload.bind Payload.preview
        lastPing := localNow }
    let s2 :=
      if msg.type = .TELEMETRY ∨ msg.type = .HANDSHAKE then
        { s1 with devices := mapSet s1.devices msg.senderId record }
      else s1
    let evs :=
      if msg.type = .TELEMETRY ∨ msg.type = .HANDSHAKE then notifyTelemetry s2 else []
    match s2.onMessageCallback with
    | some cb => (s2, evs ++ [.messageDeliver cb msg])
    | none => (s2, evs)

/-- `LegionService.getSynchronizedTime()`, with `Date.now()` passed in as
`localClock`. -/
def getSynchronizedTime (s : SvcState κ τ) (localClock : Int) : Int :=
  localClock - s.syncOffset

/-- `handleMessage` writes `syncOffset` exactly when the sender is another
node and the kind is `SYNC` or `HEARTBEAT`; otherwise it leaves it alone. -/
lemma handleMessage_syncOffset (s : SvcState κ τ) (msg : LegionMessage) (localNow : Int) :
    (handleMessage s msg localNow).1.syncOffset =
      if msg.senderId ≠ s.deviceId ∧ (msg.type = .SYNC ∨ msg.type = .HEARTBEAT) then
        localNow - msg.timestamp
      else s.syncOffset := by
  unfold handleMessage
  dsimp only
  split
  · simp_all
  · split <;> split <;> split <;> simp_all

/-- `LegionService.onMessage(callback)`: registers the callback and returns the
unsubscribe closure `() => { this.onMessageCallback = null; }` (a state
transformer that does not depend on which registration produced it). -/
def onMessage (s : SvcState κ τ) (cb : κ) :
    SvcState κ τ × (SvcState κ τ → SvcState κ τ) :=
  ({ s with onMessageCallback := some cb },
   fun t => { t with onMessageCallback := none })

/-- `LegionService.onTelemetryUpdate(callback)` and its unsubscribe closure
`() => { this.onTelemetryCallback = null; }`. -/
def onTelemetryUpdate (s : SvcState κ τ) (cb : τ) :
    SvcState κ τ × (SvcState κ τ → SvcState κ τ) :=
  ({ s with onTelemetryCallback := some cb },
   fun t => { t with onTelemetryCallback := none })

/-- `LegionService.sendCommand(type, payload)` at send time `now`
(`Date.now()`). Returns the constructed message, the effects performed
synchronously inside the call, and the deferred tasks it schedules
(`setTimeout(…, 0)` bodies) — in the source the only deferred task is the
commander loopback. -/
def sendCommand (s : SvcState κ τ) (type : MsgType) (payload : Option Payload) (now : Int) :
    LegionMessage × List (SvcEvent κ τ) × List (SvcEvent κ τ) :=
  let msg : LegionMessage :=
    { type := type, timestamp := now, senderId := s.deviceId, payload := payload }
  if s.socketExists ∧ s.socketOpenState then
    (msg, [.socketSend msg], [])
  else if s.role = some .LEGATUS then
    (msg, [.nativeBroadcast type payload s.protocol], [.deferredLoopback msg])
  else
    (msg, [], [])

/-- Running a deferred loopback task later: `if (this.onMessageCallback)
this.onMessageCallback(msg)` against the state current at that time. -/
def runLoopback (s : SvcState κ τ) (msg : LegionMessage) : List (SvcEvent κ τ) :=
  match s.onMessageCallback with
  | some cb => [.messageDeliver cb msg]
  | none => []

/-- One firing of the `startHeartbeat` interval body at time `now`: send a
`HEARTBEAT`, then sweep `devices`, deleting every record with
`now - d.lastPing > 15000`, and `notifyTelemetry()` iff something was deleted.
The sweep is the fold the `forEach` performs. -/
def sweepDevices (devs : List (String × DeviceTelemetry)) (now : Int) :
    List (String × DeviceTelemetry) × Bool :=
  match devs with
  | [] => ([], false)
  | p :: rest =>
    let sw := sweepDevices rest now
    if now - p.2.lastPing > 15000 then (sw.1, true) else (p :: sw.1, sw.2)

/-- The payload the heartbeat tick sends:
`{ status: 'ONLINE', name: …, protocol: … }`. -/
def heartbeatPayload (s : SvcState κ τ) : Payload :=
  { status := some "ONLINE", name := some ("Node_" ++ s.deviceId.take 4) }

/-- The interval body installed by `startHeartbeat`, at firing time `now`.
Returns the new state, the synchronous events, and the deferred tasks coming
from the inner `sendCommand`. -/
def heartbeatTick (s : SvcState κ τ) (now : Int) :
    SvcState κ τ × List (SvcEvent κ τ) × List (SvcEvent κ τ) :=
  let sc := sendCommand s .HEARTBEAT (some (heartbeatPayload s)) now
  let sw := sweepDevices s.devices now
  let s1 := { s with devices := sw.1 }
  (s1, sc.2.1 ++ (if sw.2 then notifyTelemetry s1 else []), sc.2.2)

/-- `startHeartbeat()`: installs the interval (period 5000 ms) unless one is
already running. Only the timer bookkeeping is state; the body is
`heartbeatTick`. -/
def startHeartbeat (s : SvcState κ τ) : SvcState κ τ :=
  match s.heartbeatInterval with
  | some _ => s
  | none => { s with heartbeatInterval := some 5000 }

/-- `stopHeartbeat()`. -/
def stopHeartbeat (s : SvcState κ τ) : SvcState κ τ :=
  { s with heartbeatInterval := none }

/-- The resolution of the `initialize` promise: the source body never throws
and never rejects, so the only outcome is `ok`; `error` exists so the model
can state that it is never produced. -/
inductive InitResult where
  | ok | error (e : String)
deriving DecidableEq, Repr

/-- `LegionService.initialize(role, protocol, targetIp)`. The `CENTURION`-with-
address branch constructs a WebSocket (socket exists, not yet open; `onopen`
is modelled as the separate `socketOnOpen` event); every other call falls into
the `else` branch and starts the heartbeat locally. The body cannot throw, so
the promise always resolves. -/
def initializeService (s : SvcState κ τ) (role : LegionRole) (protocol : ConnectivityProtocol)
    (targetIp : Option String) : SvcState κ τ × InitResult :=
  let s1 := stopHeartbeat { s with role := some role, protocol := protocol }
  if role = .CENTURION ∧ targetIp.isSome then
    ({ s1 with socketExists := true, socketOpenState := false }, .ok)
  else
    (startHeartbeat s1, .ok)

/-- The pieces of `CameraInterface` state the Legion message handler touches.
`hasStream` models `stream !== null`, `hasRecorder` models
`mediaRecorderRef.current !== null`, `isRecording` models
`isRecordingRef.current`, `pending` holds the absolute fire times of the
start timers created by `setTimeout`, and `startLog` records each time
`recorder.start()` ran. -/
structure CamState where
  hasStream : Bool := true
  hasRecorder : Bool := false
  isRecording : Bool := false
  pending : List Int := []
  startLog : List Int := []
deriving DecidableEq, Repr

/-- `startRecording(broadcast)` from `CameraInterface.tsx` at local time `now`.
The returned Bool records whether the closing line
`if (broadcast && isLegionMode && legionRole === 'LEGATUS')
legionService.sendCommand('START_REC', { delay: 500 })` fired. Recording
state is set synchronously inside the call, before any dispatch. -/
def startRecording (cam : CamState) (broadcast isLegionMode : Bool)
    (legionRole : Option LegionRole) (now : Int) : CamState × Bool :=
  if cam.hasStream = false then (cam, false)
  else
    ({ cam with hasRecorder := true, isRecording := true, startLog := cam.startLog ++ [now] },
     broadcast && isLegionMode && (legionRole == some .LEGATUS))

/-- `stopRecording(broadcast)`: guarded by
`mediaRecorderRef.current && isRecordingRef.current`; the Bool records whether
`sendCommand('STOP_REC')` fired. -/
def stopRecording (cam : CamState) (broadcast isLegionMode : Bool)
    (legionRole : Option LegionRole) : CamState × Bool :=
  if cam.hasRecorder && cam.isRecording then
    ({ cam with isRecording := false },
     broadcast && isLegionMode && (legionRole == some .LEGATUS))
  else (cam, false)

/-- The delay the `START_REC` branch computes:
`Math.max(0, (msg.timestamp + (msg.payload?.delay || 0)) - legionService.getSynchronizedTime())`. -/
def startRecDelay (msg : LegionMessage) (syncNow : Int) : Int :=
  max 0 (msg.timestamp + payloadDelay msg - syncNow)

/-- The callback `CameraInterface` registers via `legionService.onMessage` in
Legion mode, at local receipt time `now` with `getSynchronizedTime()` reading
`syncNow`. A `START_REC` schedules one start timer (absolute fire time
`now + delay`); a `STOP_REC` calls `stopRecording(false)` only when a
recording is in progress — it does not touch `pending`. -/
def camOnMessage (deviceId : String) (cam : CamState) (msg : LegionMessage)
    (now syncNow : Int) (isLegionMode : Bool) (legionRole : Option LegionRole) : CamState :=
  if msg.senderId = deviceId then cam
  else if msg.type = .START_REC then
    { cam with pending := cam.pending ++ [now + startRecDelay msg syncNow] }
  else if msg.type = .STOP_REC then
    if cam.isRecording then (stopRecording cam false isLegionMode legionRole).1 else cam
  else cam

/-- A pending start timer firing at time `t`: the timer leaves the pending set
and its body `if (!isRecordingRef.current) startRecording(false)` runs. -/
def camTimerFire (cam : CamState) (t : Int) (isLegionMode : Bool)
    (legionRole : Option LegionRole) : CamState :=
  let cam1 := { cam with pending := cam.pending.erase t }
  if cam1.isRecording then cam1
  else (startRecording cam1 false isLegionMode legionRole t).1

/-- `handleShutterAction` restricted to the video/legion branch:
`if (isRecording) stopRecording(); else startRecording();` (both with
`broadcast = true`). The second component is the command dispatched through
`legionService.sendCommand`, if any. -/
def handleShutterActionVideo (cam : CamState) (isLegionMode : Bool)
    (legionRole : Option LegionRole) (now : Int) :
    CamState × Option (MsgType × Option Payload) :=
  if cam.isRecording then
    let (cam1, b) := stopRecording cam true isLegionMode legionRole
    (cam1, if b then some (.STOP_REC, none) else none)
  else
    let (cam1, b) := startRecording cam true isLegionMode legionRole now
    (cam1, if b then some (.START_REC, some { delay := some 500 }) else none)

/-- Events affecting the camera-side handler state: receipt of a Legion
message, or the firing of a previously scheduled start timer. -/
inductive CamEvent where
  | recv (msg : LegionMessage) (now syncNow : Int)
  | fire (t : Int)
deriving DecidableEq, Repr

/-- One camera event. -/
def camStep (deviceId : String) (isLegionMode : Bool) (legionRole : Option LegionRole)
    (cam : CamState) : CamEvent → CamState
  | .recv msg now syncNow => camOnMessage deviceId cam msg now syncNow isLegionMode legionRole
  | .fire t => camTimerFire cam t isLegionMode legionRole

/-- A run of camera events. -/
def camRun (deviceId : String) (isLegionMode : Bool) (legionRole : Option LegionRole)
    (cam : CamState) (evs : List CamEvent) : CamState :=
  evs.foldl (camStep deviceId isLegionMode legionRole) cam

/-- Operations on the `LegionService` singleton, for trace reasoning.
`socketRecv` is the WebSocket `onmessage` handler (only reachable when a
socket exists); `socketOpenEvt` is `onopen`; `tick` is a firing of the
heartbeat interval; `dispatch` is a `sendCommand` call (which mutates no
service state); `loopbackRun` is a deferred loopback task executing. -/
inductive SvcOp (κ τ : Type) where
  | init (role : LegionRole) (protocol : ConnectivityProtocol) (targetIp : Option String)
  | socketOpenEvt (now : Int)
  | socketRecv (msg : LegionMessage) (localNow : Int)
  | dispatch (type : MsgType) (payload : Option Payload) (now : Int)
  | loopbackRun (msg : LegionMessage)
  | tick (now : Int)
  | registerMessage (cb : κ)
  | unsubMessage
  | registerTelemetry (cb : τ)
  | unsubTelemetry

/-- State transition of one `SvcOp`. -/
def svcStep (s : SvcState κ τ) : SvcOp κ τ → SvcState κ τ
  | .init role proto ip => (initializeService s role proto ip).1
  | .socketOpenEvt _ => if s.socketExists then startHeartbeat s else s
  | .socketRecv msg now => if s.socketExists then (handleMessage s msg now).1 else s
  | .dispatch _ _ _ => s
  | .loopbackRun _ => s
  | .tick now => if s.heartbeatInterval.isSome then (heartbeatTick s now).1 else s
  | .registerMessage cb => (onMessage s cb).1
  | .unsubMessage => { s with onMessageCallback := none }
  | .registerTelemetry cb => (onTelemetryUpdate s cb).1
  | .unsubTelemetry => { s with onTelemetryCallback := none }

/-- A run of service operations. -/
def svcRun (s : SvcState κ τ) : List (SvcOp κ τ) → SvcState κ τ
  | [] => s
  | op :: rest => svcRun (svcStep s op) rest

/-- The state of the `LegionService` singleton at module load: fresh
`deviceId`, no socket, `syncOffset = 0`, no callbacks, no timer, no devices. -/
def freshState (κ τ : Type) (id : String) : SvcState κ τ :=
  { deviceId := id }

/-- Is this event an invocation of the registered message observer? -/
def SvcEvent.isObserverInvocation : SvcEvent κ τ → Bool
  | .messageDeliver _ _ => true
  | _ => false

/-- Is this event a membership-changed (telemetry) notification? -/
def SvcEvent.isTelemetryNotify : SvcEvent κ τ → Bool
  | .telemetryNotify _ _ => true
  | _ => false

/-- A `START_REC` broadcast by the commander at origin time 1000 with the
embedded 500 ms lead. -/
def startRec1000 : LegionMessage :=
  { type := .START_REC, timestamp := 1000, senderId := "cmd",
    payload := some { delay := some 500 } }

/-- A `START_REC` broadcast by the commander at origin time 0 with the 500 ms
lead `startRecording` embeds. -/
def startRec0 : LegionMessage :=
  { type := .START_REC, timestamp := 0, senderId := "cmd",
    payload := some { delay := some 500 } }

/-- A `STOP_REC` from the commander at origin time 100. -/
def stopRec100 : LegionMessage :=
  { type := .STOP_REC, timestamp := 100, senderId := "cmd" }

/-- The camera-side state of a freshly mounted `CameraInterface`. -/
def freshCam : CamState := {}

/-- A commander-side `LegionService` state: `LEGATUS` role, no socket, the
camera message callback registered (callbacks indexed by `Nat`). -/
def cmdSvc : SvcState Nat Nat :=
  { deviceId := "cmd", role := some .LEGATUS, onMessageCallback := some 0 }

/-- A `DeviceTelemetry` record for a field node last seen at local time 0. -/
def nodeARecord : DeviceTelemetry :=
  { id := "nodeA", name := "A", role := .CENTURION, status := "ONLINE",
    currentLens := "STANDARD", previewFrame := none, lastPing := 0 }

/-- A commander that currently tracks `nodeA` (last seen at time 0). -/
def cmdWithNodeA : SvcState Unit Unit :=
  { deviceId := "cmd", role := some .LEGATUS, devices := [("nodeA", nodeARecord)] }

/-- A commander tracking `nodeA` with a telemetry observer registered. -/
def cmdWithNodeAT : SvcState Unit Unit :=
  { deviceId := "cmd", role := some .LEGATUS, onTelemetryCallback := some (),
    devices := [("nodeA", nodeARecord)] }

/-- A `HEARTBEAT` from `nodeA` with origin timestamp `t`, carrying the name
and status fields the heartbeat sender includes. -/
def hbFromNodeA (t : Int) : LegionMessage :=
  { type := .HEARTBEAT, timestamp := t, senderId := "nodeA",
    payload := some { name := some "A", status := some "ONLINE" } }

/-- C10: the observer registries hold at most one callback each
(an `Option` field): registering through `onMessage` / `onTelemetryUpdate`
replaces the previously registered callback, and the unsubscribe closure
returned by either registration sets the field to `null` unconditionally,
so invoking any unsubscribe clears whichever callback is registered at that
moment — including one registered after the unsubscribe was created. -/
theorem observer_registration_replaces_and_unsub_clears
    {κ τ : Type} (s : SvcState κ τ) (c1 c2 : κ) (d1 d2 : τ) :
    ((onMessage s c1).1).onMessageCallback = some c1 ∧
    ((onMessage (onMessage s c1).1 c2).1).onMessageCallback = some c2 ∧
    (∀ t : SvcState κ τ, ((onMessage s c1).2 t).onMessageCallback = none) ∧
    (((onMessage s c1).2 (onMessage (onMessage s c1).1 c2).1).onMessageCallback = none) ∧
    ((onTelemetryUpdate s d1).1).onTelemetryCallback = some d1 ∧
    ((onTelemetryUpdate (onTelemetryUpdate s d1).1 d2).1).onTelemetryCallback = some d2 ∧
    (∀ t : SvcState κ τ, ((onTelemetryUpdate s d1).2 t).onTelemetryCallback = none) := by
  refine ⟨rfl, rfl, fun t => rfl, rfl, rfl, rfl, fun t => rfl⟩

/-- C5: processing a `SYNC` or `HEARTBEAT` message from another node at local
time `R` overwrites `syncOffset` to `R - msg.timestamp` (last writer wins,
no averaging), after which `getSynchronizedTime` returns
`localClock - (R - msg.timestamp)`; and no message of any other kind ever
changes `syncOffset`, so the value persists until the next such message. -/
theorem sync_offset_last_writer_wins
    {κ τ : Type} (s : SvcState κ τ) (msg : LegionMessage) (R : Int)
    (h1 : msg.senderId ≠ s.deviceId)
    (h2 : msg.type = .SYNC ∨ msg.type = .HEARTBEAT) :
    (handleMessage s msg R).1.syncOffset = R - msg.timestamp ∧
    (∀ L : Int, getSynchronizedTime (handleMessage s msg R).1 L = L - (R - msg.timestamp)) ∧
    (∀ (s' : SvcState κ τ) (msg' : LegionMessage) (R' : Int),
      msg'.type ≠ .SYNC → msg'.type ≠ .HEARTBEAT →
      (handleMessage s' msg' R').1.syncOffset = s'.syncOffset) := by
  refine ⟨?_, ?_, ?_⟩
  · rw [handleMessage_syncOffset, if_pos ⟨h1, h2⟩]
  · intro L
    unfold getSynchronizedTime
    rw [handleMessage_syncOffset, if_pos ⟨h1, h2⟩]
  · intro s' msg' R' hs hh
    rw [handleMessage_syncOffset, if_neg (by simp [hs, hh])]

/-- Witness for `sync_offset_last_writer_wins`: a heartbeat from node `b`
with origin timestamp 100 processed at local time 140 by node `a`. -/
theorem sync_offset_last_writer_wins_witness :
    (handleMessage (freshState Unit Unit "a")
        { type := .HEARTBEAT, timestamp := 100, senderId := "b" } 140).1.syncOffset = 40 := by
  have h := sync_offset_last_writer_wins (freshState Unit Unit "a")
    { type := .HEARTBEAT, timestamp := 100, senderId := "b" } 140
    (by decide) (Or.inr rfl)
  rw [h.1]; rfl

/-- C4: on receipt of a `START_REC` message from another node, the handler
computes `delay = max(0, (timestamp + payload.delay) - synchronizedNow)` — a
value that is never negative — and schedules exactly one start timer (at
absolute time `now + delay`); when that timer fires while a recording is
already in progress, the body is a no-op (only the timer itself is
consumed). -/
theorem start_rec_schedules_one_guarded_start
    (d : String) (cam : CamState) (msg : LegionMessage)
    (now syncNow : Int) (lm : Bool) (lr : Option LegionRole)
    (h1 : msg.senderId ≠ d) (h2 : msg.type = .START_REC) :
    camOnMessage d cam msg now syncNow lm lr =
      { cam with pending :=
          cam.pending ++ [now + max 0 (msg.timestamp + payloadDelay msg - syncNow)] } ∧
    0 ≤ startRecDelay msg syncNow ∧
    (∀ (cam' : CamState) (t : Int), cam'.isRecording = true →
      camTimerFire cam' t lm lr = { cam' with pending := cam'.pending.erase t }) := by
  refine ⟨?_, le_max_left 0 _, ?_⟩
  · unfold camOnMessage
    rw [if_neg h1, if_pos h2]
    rfl
  · intro cam' t hrec
    unfold camTimerFire
    simp [hrec]

/-- Witness for `start_rec_schedules_one_guarded_start`: `startRec1000`
received at synchronized time 1100 schedules one start timer 400 ms out. -/
theorem start_rec_schedules_one_guarded_start_witness :
    (camOnMessage "field" freshCam startRec1000 1100 1100 true (some .CENTURION)).pending
      = [1500] := by
  have h := start_rec_schedules_one_guarded_start "field" freshCam startRec1000
    1100 1100 true (some .CENTURION) (by decide) rfl
  rw [h.1]; rfl

/-- `sendCommand` constructs the wire message from its own identity and send
time regardless of which delivery branch runs. -/
lemma sendCommand_fst (s : SvcState κ τ) (ty : MsgType) (p : Option Payload) (now : Int) :
    (sendCommand s ty p now).1 =
      { type := ty, timestamp := now, senderId := s.deviceId, payload := p } := by
  unfold sendCommand
  dsimp only
  split
  · rfl
  · split <;> rfl

/-- C9: on the Commander, `sendCommand` never invokes the local message
observer synchronously — none of its immediate effects is an observer
invocation — and when no open socket exists (the commander broadcast path)
the loopback delivery is scheduled as a deferred task, whose later execution
is what invokes the observer. -/
theorem commander_dispatch_loopback_is_deferred
    {κ τ : Type} (s : SvcState κ τ) (ty : MsgType) (p : Option Payload) (now : Int)
    (hrole : s.role = some .LEGATUS) :
    (∀ e ∈ (sendCommand s ty p now).2.1, e.isObserverInvocation = false) ∧
    (s.socketOpenState = false →
      (sendCommand s ty p now).2.2 =
        [.deferredLoopback { type := ty, timestamp := now, senderId := s.deviceId, payload := p }] ∧
      ∀ cb : κ, s.onMessageCallback = some cb →
        runLoopback s { type := ty, timestamp := now, senderId := s.deviceId, payload := p } =
          [.messageDeliver cb { type := ty, timestamp := now, senderId := s.deviceId, payload := p }]) := by
  constructor
  · intro e he
    unfold sendCommand at he
    dsimp only at he
    split at he <;>
      · simp only [List.mem_singleton] at he
        subst he; rfl
  · intro hsock
    constructor
    · unfold sendCommand
      dsimp only
      rw [if_neg (by simp [hsock]), if_pos hrole]
    · intro cb hcb
      unfold runLoopback
      rw [hcb]

/-- Witness for `commander_dispatch_loopback_is_deferred`: a commander with a
closed socket dispatching `START_REC` schedules exactly the deferred loopback
task for its own message. -/
theorem commander_dispatch_loopback_is_deferred_witness :
    (sendCommand cmdSvc .START_REC (some { delay := some 500 }) 1000).2.2 =
      [SvcEvent.deferredLoopback startRec1000] := by
  exact ((commander_dispatch_loopback_is_deferred cmdSvc .START_REC
    (some { delay := some 500 }) 1000 rfl).2 rfl).1

/-- C8 counterexample: calling `initialize` with the FieldNode role and no
target address does NOT fail with an `InitializationError`, and nothing is
rolled back — the promise resolves, the role stays `CENTURION`, and the
heartbeat interval is left running (the call takes the standalone `else`
branch). -/
theorem fieldnode_init_no_address_counterexample :
    (initializeService (freshState Unit Unit "n") .CENTURION .WIFI none).2 = .ok ∧
    (initializeService (freshState Unit Unit "n") .CENTURION .WIFI none).1.role
      = some .CENTURION ∧
    (initializeService (freshState Unit Unit "n") .CENTURION .WIFI none).1.heartbeatInterval
      = some 5000 ∧
    (initializeService (freshState Unit Unit "n") .CENTURION .WIFI none).1.socketExists
      = false := by
  exact ⟨rfl, rfl, rfl, rfl⟩

/-- C8 amended: `initialize` never surfaces an error to its caller (its body
cannot throw, so the promise always resolves `ok`), it always leaves the role
set to the requested one, and a FieldNode call without a target address takes
the standalone branch: no socket is created and the local heartbeat timer is
started rather than rolled back. -/
theorem initialize_never_fails_and_keeps_role
    {κ τ : Type} (s : SvcState κ τ) (role : LegionRole)
    (proto : ConnectivityProtocol) (ip : Option String) :
    (initializeService s role proto ip).2 = .ok ∧
    (initializeService s role proto ip).1.role = some role ∧
    (initializeService s .CENTURION proto none).1.heartbeatInterval = some 5000 ∧
    (initializeService s .CENTURION proto none).1.socketExists = s.socketExists := by
  refine ⟨?_, ?_, rfl, rfl⟩
  · unfold initializeService
    dsimp only
    split <;> rfl
  · unfold initializeService
    dsimp only
    split <;> rfl

/-- C1 counterexample: when the Commander (device id `cmd`, Legion mode,
not yet recording) triggers a global start at time 1000, `startRecording`
sets the recording state synchronously at dispatch time (start logged at
1000, before any message is delivered), and the loopback copy of its own
`START_REC` — whose `senderId` is `cmd` — is dropped by the camera handler's
self-guard: delivering it changes nothing and schedules no `waitMs` timer.
This refutes both halves of the claim at a concrete input. -/
theorem commander_loopback_claim_counterexample :
    (handleShutterActionVideo freshCam true (some .LEGATUS) 1000).1.isRecording = true ∧
    (handleShutterActionVideo freshCam true (some .LEGATUS) 1000).1.startLog = [1000] ∧
    (handleShutterActionVideo freshCam true (some .LEGATUS) 1000).2 =
      some (.START_REC, some { delay := some 500 }) ∧
    (sendCommand cmdSvc .START_REC (some { delay := some 500 }) 1000).2.2 =
      [SvcEvent.deferredLoopback startRec1000] ∧
    camOnMessage "cmd" (handleShutterActionVideo freshCam true (some .LEGATUS) 1000).1
        startRec1000 1001 1001 true (some .LEGATUS) =
      (handleShutterActionVideo freshCam true (some .LEGATUS) 1000).1 ∧
    (handleShutterActionVideo freshCam true (some .LEGATUS) 1000).1.pending = [] := by
  refine ⟨rfl, rfl, rfl, rfl, by decide, rfl⟩

/-- C1 amended: when the Commander triggers a global start (Legion mode, not
recording, stream available), it begins recording locally immediately and
synchronously at dispatch time and broadcasts `START_REC {delay: 500}`; the
asynchronous loopback copy of that message carries the Commander's own
`senderId`, so the camera handler's self-guard discards it in every camera
state — the Commander never goes through the `waitMs` scheduling path. -/
theorem commander_starts_at_dispatch_loopback_dropped
    {κ τ : Type} (cam : CamState) (svc : SvcState κ τ) (now : Int)
    (h1 : cam.hasStream = true) (h2 : cam.isRecording = false) :
    (handleShutterActionVideo cam true (some .LEGATUS) now).1.isRecording = true ∧
    (handleShutterActionVideo cam true (some .LEGATUS) now).1.startLog =
      cam.startLog ++ [now] ∧
    (handleShutterActionVideo cam true (some .LEGATUS) now).2 =
      some (.START_REC, some { delay := some 500 }) ∧
    (∀ (cam' : CamState) (t sn : Int) (lm : Bool) (lr : Option LegionRole),
      camOnMessage svc.deviceId cam'
        (sendCommand svc .START_REC (some { delay := some 500 }) now).1 t sn lm lr
        = cam') := by
  refine ⟨?_, ?_, ?_, ?_⟩
  · unfold handleShutterActionVideo startRecording
    simp [h1, h2]
  · unfold handleShutterActionVideo startRecording
    simp [h1, h2]
  · unfold handleShutterActionVideo startRecording
    simp [h1, h2]
  · intro cam' t sn lm lr
    unfold camOnMessage
    rw [sendCommand_fst]
    rw [if_pos rfl]

/-- Witness for `commander_starts_at_dispatch_loopback_dropped` at the fresh
camera state and the concrete commander service state. -/
theorem commander_starts_at_dispatch_loopback_dropped_witness :
    (handleShutterActionVideo freshCam true (some .LEGATUS) 2000).1.startLog = [2000] ∧
    camOnMessage "cmd" freshCam
      (sendCommand cmdSvc .START_REC (some { delay := some 500 }) 2000).1 2001 2001
      true (some .LEGATUS) = freshCam := by
  have h := commander_starts_at_dispatch_loopback_dropped freshCam cmdSvc 2000 rfl rfl
  exact ⟨h.2.1, h.2.2.2 freshCam 2001 2001 true (some .LEGATUS)⟩

/-- C2 (code bug): `handleMessage` upserts a device record only for
`TELEMETRY` and `HANDSHAKE`, never for `HEARTBEAT`. At the failing input —
a node that sends only heartbeats — the commander's device snapshot stays
empty; and a heartbeat from an already-tracked node does not refresh
`lastPing`, so the node is evicted by the next sweep 15 s after its last
handshake even though it heartbeated 6 s before the sweep. -/
theorem heartbeat_does_not_establish_or_refresh_membership :
    (handleMessage (freshState Unit Unit "cmd") (hbFromNodeA 995) 1000).1.devices = [] ∧
    (handleMessage cmdWithNodeA (hbFromNodeA 9995) 10000).1.devices
      = [("nodeA", nodeARecord)] ∧
    (sweepDevices (handleMessage cmdWithNodeA (hbFromNodeA 9995) 10000).1.devices
      16000).1 = [] := by
  refine ⟨by decide, by decide, by decide⟩

/-- C3 (code bug): the `STOP_REC` branch never cancels the start timer the
`START_REC` branch scheduled. Failing input: `START_REC` (origin 0, lead 500)
received at time 50 schedules a start at 500; `STOP_REC` arrives at 100 while
no recording is in progress (so the branch does nothing and the timer stays
pending); the timer then fires at 500 with no recording in progress and
starts one — the node begins recording after being told to stop. -/
theorem stop_rec_does_not_cancel_pending_start :
    (camRun "field" true (some .CENTURION) freshCam
      [.recv startRec0 50 50, .recv stopRec100 100 100]).pending = [500] ∧
    (camRun "field" true (some .CENTURION) freshCam
      [.recv startRec0 50 50, .recv stopRec100 100 100, .fire 500]).isRecording = true ∧
    (camRun "field" true (some .CENTURION) freshCam
      [.recv startRec0 50 50, .recv stopRec100 100 100, .fire 500]).startLog = [500] := by
  refine ⟨by decide, by decide, by decide⟩

/-- The sweep keeps exactly the records whose age is within the 15000 ms
liveness window. -/
lemma sweepDevices_fst (devs : List (String × DeviceTelemetry)) (now : Int) :
    (sweepDevices devs now).1 =
      devs.filter (fun q => !(decide (now - q.2.lastPing > 15000))) := by
  induction devs with
  | nil => rfl
  | cons p rest ih =>
    unfold sweepDevices
    dsimp only
    by_cases h : now - p.2.lastPing > 15000
    · rw [if_pos h, ih, List.filter_cons]
      simp [h]
    · rw [if_neg h, ih, List.filter_cons]
      simp [h]

/-- The sweep's `changed` flag is set iff some record aged out. -/
lemma sweepDevices_snd (devs : List (String × DeviceTelemetry)) (now : Int) :
    (sweepDevices devs now).2 =
      devs.any (fun q => decide (now - q.2.lastPing > 15000)) := by
  induction devs with
  | nil => rfl
  | cons p rest ih =>
    unfold sweepDevices
    dsimp only
    by_cases h : now - p.2.lastPing > 15000
    · rw [if_pos h]
      simp [h]
    · rw [if_neg h, ih]
      simp [h]

/-- The synchronous effects of `sendCommand` never include a telemetry
notification. -/
lemma sendCommand_immediate_no_telemetry (s : SvcState κ τ) (ty : MsgType)
    (p : Option Payload) (now : Int) :
    (sendCommand s ty p now).2.1.any SvcEvent.isTelemetryNotify = false := by
  unfold sendCommand
  dsimp only
  split
  · rfl
  · split <;> rfl

/-- C7: the sweep and the heartbeat emission live in the same interval body
(`heartbeatTick`), installed by `startHeartbeat` with a 5000 ms period; a
tick at time `now` removes exactly the records with `now - lastSeenAt >
15000`, emits a membership-changed (telemetry) notification iff at least one
record was removed, and its event list starts with the effect of the
`HEARTBEAT` dispatch. -/
theorem sweep_on_heartbeat_cadence_evicts_and_notifies_iff_removed
    {κ τ : Type} (s : SvcState κ τ) (now : Int) (cb : τ)
    (hcb : s.onTelemetryCallback = some cb) :
    (heartbeatTick s now).1.devices =
      s.devices.filter (fun q => !(decide (now - q.2.lastPing > 15000))) ∧
    ((heartbeatTick s now).2.1.any SvcEvent.isTelemetryNotify = true ↔
      ∃ q ∈ s.devices, now - q.2.lastPing > 15000) ∧
    (∃ rest, (heartbeatTick s now).2.1 =
      (sendCommand s .HEARTBEAT (some (heartbeatPayload s)) now).2.1 ++ rest) ∧
    (∀ t : SvcState κ τ, t.heartbeatInterval = none →
      (startHeartbeat t).heartbeatInterval = some 5000) := by
  refine ⟨?_, ?_, ⟨_, rfl⟩, ?_⟩
  · show ({ s with devices := (sweepDevices s.devices now).1 }).devices = _
    rw [sweepDevices_fst]
  · show ((sendCommand s .HEARTBEAT (some (heartbeatPayload s)) now).2.1 ++
      (if (sweepDevices s.devices now).2 then
        notifyTelemetry { s with devices := (sweepDevices s.devices now).1 }
      else [])).any SvcEvent.isTelemetryNotify = true ↔ _
    rw [List.any_append, sendCommand_immediate_no_telemetry, sweepDevices_snd]
    simp only [Bool.false_or]
    by_cases h : s.devices.any (fun q => decide (now - q.2.lastPing > 15000)) = true
    · rw [h]
      simp only [if_true]
      unfold notifyTelemetry
      rw [hcb]
      simp only [List.any_cons, List.any_nil, Bool.or_false]
      simp only [List.any_eq_true, decide_eq_true_eq] at h
      simp [SvcEvent.isTelemetryNotify, h]
    · rw [Bool.not_eq_true] at h
      rw [h]
      simp only [List.any_eq_true, decide_eq_true_eq] at h ⊢
      simp only [Bool.false_eq_true] at h ⊢
      constructor
      · intro hx
        exact absurd hx (by simp)
      · intro hx
        exact absurd hx (by simpa using h)
  · intro t ht
    unfold startHeartbeat
    rw [ht]

/-- Witness for `sweep_on_heartbeat_cadence_evicts_and_notifies_iff_removed`:
a commander tracking `nodeA` (last seen at 0) ticking at 16000 removes it and
emits the membership-changed notification. -/
theorem sweep_on_heartbeat_cadence_witness :
    (heartbeatTick cmdWithNodeAT 16000).1.devices = [] ∧
    (heartbeatTick cmdWithNodeAT 16000).2.1.any SvcEvent.isTelemetryNotify = true := by
  have h := sweep_on_heartbeat_cadence_evicts_and_notifies_iff_removed
    cmdWithNodeAT 16000 () rfl
  refine ⟨by rw [h.1]; decide, h.2.1.mpr ⟨("nodeA", nodeARecord), by decide, by decide⟩⟩

/-- Every service operation other than a `CENTURION` initialization preserves
the invariant "no socket and zero clock offset". -/
lemma svcStep_keeps_commander_offset (s : SvcState κ τ) (op : SvcOp κ τ)
    (hop : ∀ (r : LegionRole) (p : ConnectivityProtocol) (ip : Option String),
      op = .init r p ip → r = .LEGATUS)
    (h1 : s.socketExists = false) (h2 : s.syncOffset = 0) :
    (svcStep s op).socketExists = false ∧ (svcStep s op).syncOffset = 0 := by
  cases op with
  | init r p ip =>
    have hr := hop r p ip rfl
    subst hr
    unfold svcStep initializeService
    dsimp only
    rw [if_neg (by simp)]
    exact ⟨h1, h2⟩
  | socketOpenEvt now =>
    unfold svcStep
    rw [h1]
    simp only [Bool.false_eq_true, if_false]
    exact ⟨h1, h2⟩
  | socketRecv msg now =>
    unfold svcStep
    rw [h1]
    simp only [Bool.false_eq_true, if_false]
    exact ⟨h1, h2⟩
  | dispatch ty p now => exact ⟨h1, h2⟩
  | loopbackRun msg => exact ⟨h1, h2⟩
  | tick now =>
    unfold svcStep
    dsimp only
    by_cases h : s.heartbeatInterval.isSome
    · rw [if_pos h]
      exact ⟨h1, h2⟩
    · rw [if_neg h]
      exact ⟨h1, h2⟩
  | registerMessage cb => exact ⟨h1, h2⟩
  | unsubMessage => exact ⟨h1, h2⟩
  | registerTelemetry cb => exact ⟨h1, h2⟩
  | unsubTelemetry => exact ⟨h1, h2⟩

/-- The invariant of `svcStep_keeps_commander_offset`, folded over a trace. -/
lemma svcRun_keeps_commander_offset (ops : List (SvcOp κ τ)) :
    ∀ s : SvcState κ τ,
      (∀ op ∈ ops, ∀ (r : LegionRole) (p : ConnectivityProtocol) (ip : Option String),
        op = SvcOp.init r p ip → r = .LEGATUS) →
      s.socketExists = false → s.syncOffset = 0 →
      (svcRun s ops).socketExists = false ∧ (svcRun s ops).syncOffset = 0 := by
  induction ops with
  | nil => exact fun s _ h1 h2 => ⟨h1, h2⟩
  | cons op rest ih =>
    intro s hops h1 h2
    have hstep := svcStep_keeps_commander_offset s op
      (hops op (List.mem_cons_self op rest)) h1 h2
    exact ih (svcStep s op)
      (fun o ho => hops o (List.mem_cons_of_mem op ho)) hstep.1 hstep.2

/-- C6: on a node whose every initialization used the Commander (`LEGATUS`)
role, `syncOffset` starts at 0 and stays 0 across any sequence of service
operations — such a node never opens a socket, so `handleMessage` (the only
writer of `syncOffset`) is unreachable, and `getSynchronizedTime` always
returns the node's own local clock. -/
theorem commander_offset_always_zero
    (κ τ : Type) (id : String) (ops : List (SvcOp κ τ)) (now : Int)
    (hops : ∀ op ∈ ops, ∀ (r : LegionRole) (p : ConnectivityProtocol) (ip : Option String),
      op = SvcOp.init r p ip → r = .LEGATUS) :
    (svcRun (freshState κ τ id) ops).syncOffset = 0 ∧
    getSynchronizedTime (svcRun (freshState κ τ id) ops) now = now := by
  have h := svcRun_keeps_commander_offset ops (freshState κ τ id) hops rfl rfl
  refine ⟨h.2, ?_⟩
  unfold getSynchronizedTime
  rw [h.2, sub_zero]

/-- Witness for `commander_offset_always_zero`: a commander initialized over
WIFI that heartbeats once and runs a loopback delivery still reads
synchronized time equal to its local clock. -/
theorem commander_offset_always_zero_witness :
    getSynchronizedTime
      (svcRun (freshState Unit Unit "cmd")
        [SvcOp.init .LEGATUS .WIFI none, SvcOp.tick 5000,
         SvcOp.loopbackRun (hbFromNodeA 5000), SvcOp.socketRecv (hbFromNodeA 6000) 6001])
      9000 = 9000 := by
  have h := commander_offset_always_zero Unit Unit "cmd"
    [SvcOp.init .LEGATUS .WIFI none, SvcOp.tick 5000,
     SvcOp.loopbackRun (hbFromNodeA 5000), SvcOp.socketRecv (hbFromNodeA 6000) 6001]
    9000 ?_
  · exact h.2
  · intro op hop r p ip heq
    simp only [List.mem_cons, List.not_mem_nil, or_false] at hop
    rcases hop with h | h | h | h
    all_goals subst h
    · cases heq; rfl
    all_goals cases heq

end LegionLink
